import Mathlib

set_option maxRecDepth 8000

/-!
Verification development for the PLUSFIND route-energy model and
charging-stop planner.

The TypeScript source (`src/services/dynamicRouteCalculationService.ts` and
`src/services/realChargingStationService.ts`) is shallowly embedded here.
JavaScript numbers are modelled as exact rationals (`ℚ`); `Math.round` is
Mathlib's `round` (round half toward positive infinity, `⌊x + 1/2⌋`, which
matches JavaScript `Math.round`); the pattern `Math.round(x * 10) / 10` is
`round1`.  Asynchronous external calls (elevation provider, weather provider,
charging-station directory) are modelled by passing their resolved responses
as explicit function arguments.  The haversine great-circle distance
(`calculateDistance` in both services) uses transcendental functions and is
embedded separately over `ℝ`; the rational pipeline receives the computed
leg distance as an explicit argument `totalDistanceKm`.

One divergence of the rational model from JavaScript semantics: division by
zero yields `0` in `ℚ` but `Infinity`/`NaN` in JavaScript, so theorems about
quantities obtained by division carry positivity hypotheses on the divisors
where that matters.
-/

/-- A latitude/longitude pair, as used for origins, destinations and
interpolated sample points. -/
structure RoutePoint where
  lat : ℚ
  lng : ℚ
deriving DecidableEq

/-- Weather sample: temperature (Celsius), wind speed (km/h) and a free-form
condition string (the source tests it for the substrings "rain"/"storm"). -/
structure WeatherData where
  temperature : ℚ
  windSpeed : ℚ
  condition : String
deriving DecidableEq

/-- One charging port of a vehicle; only its connector-type tag is consulted
by the planner. -/
structure ChargingPort where
  type : String
deriving DecidableEq

/-- Vehicle model parameters used by the energy model and the planner. -/
structure EVModel where
  batteryCapacity : ℚ
  efficiency : ℚ
  mass : ℚ
  dragCoefficient : ℚ
  frontalArea : ℚ
  maxChargingSpeed : ℚ
  chargingPorts : List ChargingPort
deriving DecidableEq

/-- A charging station as returned by the charging-station directory. -/
structure ChargingStation where
  id : String
  name : String
  lat : ℚ
  lng : ℚ
  address : String
  network : String
  connectorTypes : List String
  maxPower : ℚ
  isAvailable : Bool
  numberOfPorts : ℕ
  costPerKwh : ℚ
  amenities : List String
deriving DecidableEq

/-- A planned charging session.  `arrivalSOC` and `chargingTime` are stored
already rounded (`Math.round`), `energyAdded` rounded to one decimal, exactly
as the source pushes them. -/
structure ChargingStop where
  station : ChargingStation
  arrivalSOC : ℤ
  departureSOC : ℚ
  chargingTime : ℤ
  energyAdded : ℚ
deriving DecidableEq

/-- One driving leg with its energy/time cost. -/
structure RouteSegment where
  startLat : ℚ
  startLng : ℚ
  endLat : ℚ
  endLng : ℚ
  distance : ℚ
  duration : ℚ
  elevationGain : ℚ
  energyRequired : ℚ
deriving DecidableEq

/-- One entry of an elevation profile: elevation (m) and distance from the
start of the leg (km). -/
structure ElevationData where
  elevation : ℚ
  distance : ℚ
deriving DecidableEq

/-- The single output artifact of a planning request
(`calculateOptimalRoute`'s return value). -/
structure RoutePlan where
  id : String
  origin : RoutePoint
  originAddress : String
  destination : RoutePoint
  destinationAddress : String
  vehicle : EVModel
  initialSOC : ℚ
  segments : List RouteSegment
  chargingStops : List ChargingStop
  totalDistance : ℤ
  totalDuration : ℤ
  totalEnergyUsed : ℚ
  finalSOC : ℤ
  weatherImpact : ℤ
deriving DecidableEq

/-- `Math.round(x * 10) / 10`: round to one decimal place. -/
def round1 (x : ℚ) : ℚ := (round (x * 10) : ℚ) / 10

/-- Character-list version of "starts with": first argument is an initial
run of the second. -/
def leadsWith : List Char → List Char → Bool
  | [], _ => true
  | _ :: _, [] => false
  | a :: as, b :: bs => a = b && leadsWith as bs

/-- Character-list version of "occurs contiguously inside". -/
def occursIn : List Char → List Char → Bool
  | sub, [] => leadsWith sub []
  | sub, c :: rest => leadsWith sub (c :: rest) || occursIn sub rest

/-- JavaScript `String.prototype.includes`: `includesStr s sub` is true when
`sub` occurs contiguously inside `s`. -/
def includesStr (s sub : String) : Bool := occursIn sub.data s.data

/-- `interpolateRoutePoints` (dynamicRouteCalculationService.ts lines
116-128): the loop runs `i = 0 .. numPoints` inclusive, producing
`numPoints + 1` points at ratio `i / numPoints` along the straight line. -/
def interpolateRoutePoints (start finish : RoutePoint) (numPoints : ℕ) : List RoutePoint :=
  (List.range (numPoints + 1)).map (fun (i : ℕ) =>
    let ratio : ℚ := (i : ℚ) / (numPoints : ℚ)
    { lat := start.lat + (finish.lat - start.lat) * ratio
      lng := start.lng + (finish.lng - start.lng) * ratio })

/-- `getElevationProfile` (lines 82-114).  The provider response is an
explicit argument: `some results` is a successful HTTP response (each entry
`none` models a missing `elevation` field, covered by `result.elevation || 0`),
`none` is a network error or non-ok status.  `totalDistanceKm` stands for
`this.calculateDistance(origin, destination)`, which is embedded separately
over `ℝ`.  On failure the profile is the flat two-point
`[{elevation: 50, distance: 0}, {elevation: 50, distance}]`. -/
def getElevationProfile (resp : Option (List (Option ℚ))) (origin destination : RoutePoint)
    (totalDistanceKm : ℚ) : List ElevationData :=
  match resp with
  | some results =>
      let points := interpolateRoutePoints origin destination 10
      results.enum.map (fun ir =>
        { elevation := ir.2.getD 0
          distance := (ir.1 : ℚ) * (totalDistanceKm / (points.length : ℚ)) })
  | none =>
      [{ elevation := 50, distance := 0 }, { elevation := 50, distance := totalDistanceKm }]

/-- The accumulation loop of `calculateElevationGain` (lines 164-175): sum of
the positive consecutive deltas of an elevation sequence. -/
def elevationGainSum : List ℚ → ℚ
  | a :: b :: rest => (if 0 < b - a then b - a else 0) + elevationGainSum (b :: rest)
  | _ => 0

/-- `calculateElevationGain` (lines 164-175): positive deltas summed,
then `Math.round`. -/
def calculateElevationGain (elevationProfile : List ElevationData) : ℤ :=
  round (elevationGainSum (elevationProfile.map (fun e => e.elevation)))

/-- `getWeatherMultiplier` (lines 200-217).  The `vehicle` parameter is
accepted and ignored, as in the source. -/
def getWeatherMultiplier (weather : WeatherData) (_vehicle : EVModel) : ℚ :=
  let multiplier : ℚ := 1
  let multiplier :=
    if weather.temperature < 0 then multiplier + 3/10
    else if weather.temperature < 10 then multiplier + 15/100
    else if weather.temperature > 35 then multiplier + 1/10
    else multiplier
  let windImpact := min (2/10) (weather.windSpeed / 100)
  multiplier + windImpact

/-- `calculateAirResistanceImpact` (lines 219-231). -/
def calculateAirResistanceImpact (distance : ℚ) (vehicle : EVModel) (_weather : WeatherData) : ℚ :=
  let averageSpeed : ℚ := 80
  let airDensity : ℚ := 1225/1000
  let dragForce := 1/2 * airDensity * vehicle.dragCoefficient * vehicle.frontalArea
    * (averageSpeed / (36/10))^2
  let powerRequired := dragForce * (averageSpeed / (36/10)) / 1000
  let timeHours := distance / averageSpeed
  powerRequired * timeHours * (1/10)

/-- `calculateEnergyConsumption` (lines 177-198). -/
def calculateEnergyConsumption (distance elevationGain : ℚ) (vehicle : EVModel)
    (weather : WeatherData) : ℚ :=
  let baseConsumption := distance * vehicle.efficiency / 1000
  let elevationImpact := elevationGain / 100 * (vehicle.mass / 1000) * (1/10)
  let weatherMultiplier := getWeatherMultiplier weather vehicle
  let airResistanceImpact := calculateAirResistanceImpact distance vehicle weather
  max 0 ((baseConsumption + elevationImpact + airResistanceImpact) * weatherMultiplier)

/-- `estimateAverageSpeed` (lines 233-253). -/
def estimateAverageSpeed (distance : ℚ) (weather : WeatherData) : ℚ :=
  let baseSpeed : ℚ := if distance < 50 then 60 else if distance < 200 then 70 else 80
  let baseSpeed :=
    if includesStr weather.condition.toLower "rain"
        || includesStr weather.condition.toLower "storm" then baseSpeed * (8/10)
    else baseSpeed
  let baseSpeed := if weather.windSpeed > 50 then baseSpeed * (9/10) else baseSpeed
  max 30 baseSpeed

/-- `calculateRouteSegments` (lines 130-162): in the baseline design a single
origin-to-destination leg becomes exactly one segment.  `totalDistanceKm`
stands for `this.calculateDistance(origin, destination)`. -/
def calculateRouteSegments (origin destination : RoutePoint) (vehicle : EVModel)
    (elevationProfile : List ElevationData) (weather : WeatherData)
    (totalDistanceKm : ℚ) : List RouteSegment :=
  let elevationGain := calculateElevationGain elevationProfile
  let energyRequired := calculateEnergyConsumption totalDistanceKm (elevationGain : ℚ)
    vehicle weather
  let averageSpeed := estimateAverageSpeed totalDistanceKm weather
  let duration := totalDistanceKm / averageSpeed * 60
  [{ startLat := origin.lat
     startLng := origin.lng
     endLat := destination.lat
     endLng := destination.lng
     distance := totalDistanceKm
     duration := (round duration : ℚ)
     elevationGain := (elevationGain : ℚ)
     energyRequired := round1 energyRequired }]

/-- `scoreChargingStation` (lines 330-348). -/
def scoreChargingStation (station : ChargingStation) : ℚ :=
  let score : ℚ := 0
  let score := score + station.maxPower / 10
  let score :=
    if station.network = "Tesla" then score + 20
    else if station.network = "DEWA" then score + 15
    else if station.network = "ADDC" then score + 10
    else score
  let score := score + (station.numberOfPorts : ℚ)
  score + (station.amenities.length : ℚ)

/-- `findBestChargingStation` (lines 312-328): filter to available stations
with a connector matching one of the vehicle's ports, then
`Array.prototype.reduce` (no initial value) keeping the higher score; on an
exact tie the earlier station is kept. -/
def findBestChargingStation (stations : List ChargingStation) (vehicle : EVModel) :
    Option ChargingStation :=
  let compatibleStations := stations.filter (fun station =>
    let hasCompatibleConnector := station.connectorTypes.any (fun t =>
      vehicle.chargingPorts.any (fun port => port.type = t))
    station.isAvailable && hasCompatibleConnector)
  match compatibleStations with
  | [] => none
  | first :: rest =>
      some (rest.foldl (fun best current =>
        if scoreChargingStation current > scoreChargingStation best then current else best) first)

/-- Running state of the planner loop in `findOptimalChargingStops`:
accumulated stops, `currentSOC`, and `currentPosition`. -/
structure PlannerState where
  stops : List ChargingStop
  currentSOC : ℚ
  currentLat : ℚ
  currentLng : ℚ
deriving DecidableEq

/-- One iteration of the `for (const segment of segments)` loop of
`findOptimalChargingStops` (lines 264-307).  `getStations` is the resolved
charging-station-directory response as a function of the queried position
(the source queries a fixed 50 km radius and the vehicle's connector types). -/
def plannerStep (getStations : ℚ → ℚ → List ChargingStation) (vehicle : EVModel)
    (st : PlannerState) (segment : RouteSegment) : PlannerState :=
  let energyNeeded := segment.energyRequired
  let socNeeded := energyNeeded / vehicle.batteryCapacity * 100
  let st1 :=
    if st.currentSOC - socNeeded < 20 then
      let nearbyStations := getStations st.currentLat st.currentLng
      match findBestChargingStation nearbyStations vehicle with
      | some bestStation =>
          let targetSOC : ℚ := 80
          let energyToAdd := vehicle.batteryCapacity * (targetSOC - st.currentSOC) / 100
          let chargingPower := min bestStation.maxPower vehicle.maxChargingSpeed
          let chargingTime := energyToAdd / chargingPower * 60
          { st with
            stops := st.stops ++ [{ station := bestStation
                                    arrivalSOC := round st.currentSOC
                                    departureSOC := targetSOC
                                    chargingTime := round chargingTime
                                    energyAdded := round1 energyToAdd }]
            currentSOC := targetSOC }
      | none => st
    else st
  { st1 with
    currentLat := segment.endLat
    currentLng := segment.endLng
    currentSOC := st1.currentSOC - socNeeded }

/-- `findOptimalChargingStops` (lines 255-310).  On an empty segment list the
source would fault reading `segments[0]`; route segmentation always produces
one segment, and the empty case is mapped to the empty stop list here. -/
def findOptimalChargingStops (getStations : ℚ → ℚ → List ChargingStation)
    (segments : List RouteSegment) (vehicle : EVModel) (initialSOC : ℚ) : List ChargingStop :=
  match segments with
  | [] => []
  | s0 :: _ =>
      (segments.foldl (plannerStep getStations vehicle)
        { stops := [], currentSOC := initialSOC,
          currentLat := s0.startLat, currentLng := s0.startLng }).stops

/-- The `currentSOC` values observed at each segment boundary (after each
loop iteration of `findOptimalChargingStops`), starting from a given state. -/
def plannerTrajectory (getStations : ℚ → ℚ → List ChargingStation) (vehicle : EVModel) :
    PlannerState → List RouteSegment → List ℚ
  | _, [] => []
  | st, seg :: rest =>
      let st1 := plannerStep getStations vehicle st seg
      st1.currentSOC :: plannerTrajectory getStations vehicle st1 rest

/-- `calculateWeatherImpact` (lines 350-360). -/
def calculateWeatherImpact (weather : WeatherData) : ℤ :=
  let impact : ℤ := 0
  let impact :=
    if weather.temperature < 0 then impact - 30
    else if weather.temperature < 10 then impact - 15
    else if weather.temperature > 35 then impact - 10
    else impact
  let impact := if weather.windSpeed > 30 then impact - 5 else impact
  max (-40) (min 10 impact)

/-- `calculateOptimalRoute` (lines 19-80).  All external responses are
explicit arguments: `getStations` the charging-station directory,
`elevationResp` the elevation provider response, `weather` the resolved
weather sample (the argument passed in, or the fetched one).
`totalDistanceKm` stands for the haversine distance between origin and
destination (embedded over `ℝ` separately), and `now` for `Date.now()`,
used only in the plan id `route-${Date.now()}`. -/
def calculateOptimalRoute (getStations : ℚ → ℚ → List ChargingStation)
    (elevationResp : Option (List (Option ℚ))) (origin destination : RoutePoint)
    (vehicle : EVModel) (initialSOC : ℚ) (weather : WeatherData)
    (totalDistanceKm : ℚ) (now : ℤ) : RoutePlan :=
  let elevationProfile := getElevationProfile elevationResp origin destination totalDistanceKm
  let segments := calculateRouteSegments origin destination vehicle elevationProfile weather
    totalDistanceKm
  let chargingStops := findOptimalChargingStops getStations segments vehicle initialSOC
  let totalDistance := segments.foldl (fun sum seg => sum + seg.distance) 0
  let totalDrivingTime := segments.foldl (fun sum seg => sum + seg.duration) 0
  let totalChargingTime := chargingStops.foldl (fun sum stop => sum + (stop.chargingTime : ℚ)) 0
  let totalEnergyUsed := segments.foldl (fun sum seg => sum + seg.energyRequired) 0
  let energyAdded := chargingStops.foldl (fun sum stop => sum + stop.energyAdded) 0
  let finalSOC := max 0 (initialSOC - totalEnergyUsed / vehicle.batteryCapacity * 100
    + energyAdded / vehicle.batteryCapacity * 100)
  { id := "route-" ++ toString now
    origin := origin
    originAddress := "Origin"
    destination := destination
    destinationAddress := "Destination"
    vehicle := vehicle
    initialSOC := initialSOC
    segments := segments
    chargingStops := chargingStops
    totalDistance := round totalDistance
    totalDuration := round (totalDrivingTime + totalChargingTime)
    totalEnergyUsed := round1 totalEnergyUsed
    finalSOC := round finalSOC
    weatherImpact := calculateWeatherImpact weather }

/-- A station the planner may select: available, with a connector type shared
with the vehicle (the predicate of the `filter` in `findBestChargingStation`). -/
def eligibleStation (vehicle : EVModel) (station : ChargingStation) : Bool :=
  station.isAvailable && station.connectorTypes.any (fun t =>
    vehicle.chargingPorts.any (fun port => port.type = t))

/-! ### Concrete test fixtures used by witnesses and counterexamples -/

/-- An available CCS2 station, compatible with the fixture vehicles. -/
def stationA : ChargingStation :=
  { id := "st-a", name := "Station A", lat := 25, lng := 55, address := "A"
    network := "Other", connectorTypes := ["CCS2"], maxPower := 150
    isAvailable := true, numberOfPorts := 1, costPerKwh := 0, amenities := [] }

/-- A 75 kWh vehicle with a CCS2 port (the spec's Scenario A/B vehicle). -/
def vA : EVModel :=
  { batteryCapacity := 75, efficiency := 150, mass := 1800, dragCoefficient := 23/100
    frontalArea := 25/10, maxChargingSpeed := 150, chargingPorts := [{ type := "CCS2" }] }

/-- A vehicle with a pathologically small (but positive) battery capacity. -/
def vTiny : EVModel :=
  { batteryCapacity := 41/500, efficiency := 150, mass := 1800, dragCoefficient := 23/100
    frontalArea := 25/10, maxChargingSpeed := 150, chargingPorts := [{ type := "CCS2" }] }

/-- A vehicle with negative efficiency (outside the caller contract of the spec). -/
def vNeg : EVModel :=
  { batteryCapacity := 75, efficiency := -1000, mass := 1000, dragCoefficient := 0
    frontalArea := 0, maxChargingSpeed := 150, chargingPorts := [] }

/-- Temperate weather (25 Celsius, 10 km/h wind, clear). -/
def wA : WeatherData := { temperature := 25, windSpeed := 10, condition := "clear" }

/-- Temperate, windless weather. -/
def wCalm : WeatherData := { temperature := 25, windSpeed := 0, condition := "clear" }

/-- Directory response: exactly `stationA` everywhere. -/
def gsA : ℚ → ℚ → List ChargingStation := fun _ _ => [stationA]

/-- Directory response: no stations anywhere (live source and fallback empty). -/
def gsEmpty : ℚ → ℚ → List ChargingStation := fun _ _ => []

/-- A segment needing the whole battery of `vA` (SOC need 100 points). -/
def segFull : RouteSegment :=
  { startLat := 0, startLng := 0, endLat := 1, endLng := 1, distance := 500
    duration := 300, elevationGain := 0, energyRequired := 75 }

/-- A segment with SOC need 90 points for `vA`. -/
def seg90 : RouteSegment :=
  { startLat := 0, startLng := 0, endLat := 1, endLng := 1, distance := 450
    duration := 300, elevationGain := 0, energyRequired := 675/10 }

/-- A segment with SOC need 50 points for `vA`. -/
def seg50 : RouteSegment :=
  { startLat := 0, startLng := 0, endLat := 1, endLng := 1, distance := 250
    duration := 200, elevationGain := 0, energyRequired := 75/2 }

/-- A segment with SOC need 40 points for `vA`. -/
def seg30 : RouteSegment :=
  { startLat := 0, startLng := 0, endLat := 1, endLng := 1, distance := 200
    duration := 170, elevationGain := 0, energyRequired := 30 }

/-! ### The haversine distance and the fallback station dataset

Both services carry a private `calculateDistance` with the same haversine
formula (Earth radius 6371 km).  JavaScript's `Math.atan2` is embedded as
`atan2` below (real-valued, ignoring signed zeros and NaN). -/

open Real in
/-- JavaScript `Math.atan2(y, x)`. -/
noncomputable def atan2 (y x : ℝ) : ℝ :=
  if 0 < x then arctan (y / x)
  else if x < 0 then
    (if 0 ≤ y then arctan (y / x) + π else arctan (y / x) - π)
  else
    (if 0 < y then π / 2 else if y < 0 then -(π / 2) else 0)

namespace RealChargingStationService

open Real in
/-- `calculateDistance` (realChargingStationService.ts lines 356-365):
haversine great-circle distance, Earth radius 6371 km. -/
noncomputable def calculateDistance (lat1 lon1 lat2 lon2 : ℝ) : ℝ :=
  let R : ℝ := 6371
  let dLat := (lat2 - lat1) * π / 180
  let dLon := (lon2 - lon1) * π / 180
  let a := sin (dLat/2) * sin (dLat/2) +
    cos (lat1 * π / 180) * cos (lat2 * π / 180) *
    sin (dLon/2) * sin (dLon/2)
  let c := 2 * atan2 (sqrt a) (sqrt (1 - a))
  R * c

/-- The curated fallback dataset of `getFallbackStations`
(realChargingStationService.ts lines 207-342), verbatim. -/
def fallbackStations : List ChargingStation :=
  [ { id := "dewa-mall-emirates"
      name := "Mall of the Emirates - DEWA Green Charger"
      lat := 25.1172, lng := 55.2001
      address := "Mall of the Emirates, Sheikh Zayed Road, Dubai, UAE"
      network := "DEWA", connectorTypes := ["CCS2", "CHAdeMO"], maxPower := 150
      isAvailable := true, numberOfPorts := 4, costPerKwh := 0.29
      amenities := ["Shopping Mall", "Restaurants", "Cinema", "Free WiFi"] },
    { id := "dewa-dubai-mall"
      name := "Dubai Mall - DEWA Station"
      lat := 25.1972, lng := 55.2744
      address := "Dubai Mall, Downtown Dubai, UAE"
      network := "DEWA", connectorTypes := ["CCS2", "Type2"], maxPower := 120
      isAvailable := true, numberOfPorts := 8, costPerKwh := 0.29
      amenities := ["Shopping Mall", "Burj Khalifa view", "Metro station"] },
    { id := "tesla-jbr"
      name := "Tesla Supercharger - JBR"
      lat := 25.0657, lng := 55.1398
      address := "Jumeirah Beach Residence, Dubai, UAE"
      network := "Tesla", connectorTypes := ["Tesla", "CCS2"], maxPower := 250
      isAvailable := true, numberOfPorts := 12, costPerKwh := 0.35
      amenities := ["Beach access", "Restaurants", "Parking"] },
    { id := "addc-yas-mall"
      name := "Yas Mall - ADDC Fast Charger"
      lat := 24.4888, lng := 54.6094
      address := "Yas Island, Abu Dhabi, UAE"
      network := "ADDC", connectorTypes := ["CCS2", "CHAdeMO", "Type2"], maxPower := 180
      isAvailable := true, numberOfPorts := 6, costPerKwh := 0.27
      amenities := ["Shopping Mall", "Theme parks nearby", "F1 Circuit"] },
    { id := "addc-corniche"
      name := "Corniche Beach - ADDC Station"
      lat := 24.4764, lng := 54.3705
      address := "Corniche Road, Abu Dhabi, UAE"
      network := "ADDC", connectorTypes := ["CCS2", "Type2"], maxPower := 100
      isAvailable := true, numberOfPorts := 4, costPerKwh := 0.27
      amenities := ["Beach access", "Restaurants", "Parking"] },
    { id := "sewa-city-centre"
      name := "City Centre Sharjah - SEWA"
      lat := 25.3373, lng := 55.4209
      address := "City Centre Sharjah, Sharjah, UAE"
      network := "SEWA", connectorTypes := ["CCS2", "Type2"], maxPower := 120
      isAvailable := true, numberOfPorts := 4, costPerKwh := 0.28
      amenities := ["Shopping Mall", "Restaurants", "Cinema"] },
    { id := "sec-khobar"
      name := "Al Khobar Charging Hub"
      lat := 26.2172, lng := 50.1971
      address := "Prince Faisal Bin Fahd Road, Al Khobar, Saudi Arabia"
      network := "Other", connectorTypes := ["CCS2", "CHAdeMO"], maxPower := 150
      isAvailable := true, numberOfPorts := 6, costPerKwh := 0.25
      amenities := ["Shopping Center", "Restaurants", "Parking"] },
    { id := "kahramaa-doha"
      name := "Doha Festival City - KAHRAMAA"
      lat := 25.3548, lng := 51.4326
      address := "Doha Festival City, Doha, Qatar"
      network := "Other", connectorTypes := ["CCS2", "Type2"], maxPower := 120
      isAvailable := true, numberOfPorts := 4, costPerKwh := 0.27
      amenities := ["Shopping Mall", "Restaurants", "Free WiFi"] },
    { id := "oman-muscat-mall"
      name := "Muscat Grand Mall Charging Station"
      lat := 23.6086, lng := 58.4291
      address := "Muscat Grand Mall, Muscat, Oman"
      network := "Other", connectorTypes := ["CCS2", "Type2"], maxPower := 100
      isAvailable := true, numberOfPorts := 4, costPerKwh := 0.31
      amenities := ["Shopping Mall", "Restaurants", "Parking"] } ]

open Classical in
/-- `getFallbackStations` (lines 207-354): the curated dataset filtered to the
stations within `radiusKm` of the request point, by haversine distance.  This
is the value `getNearbyStations` returns whenever the live source is
unreachable (non-ok response or thrown error). -/
noncomputable def getFallbackStations (lat lng radiusKm : ℝ) : List ChargingStation :=
  fallbackStations.filter (fun station =>
    decide (calculateDistance lat lng (station.lat : ℝ) (station.lng : ℝ) ≤ radiusKm))

end RealChargingStationService

namespace DynamicRouteCalculationService

open Real in
/-- `calculateDistance` (dynamicRouteCalculationService.ts lines 362-371):
textually the same haversine formula as the charging-station service's. -/
noncomputable def calculateDistance (lat1 lon1 lat2 lon2 : ℝ) : ℝ :=
  let R : ℝ := 6371
  let dLat := (lat2 - lat1) * π / 180
  let dLon := (lon2 - lon1) * π / 180
  let a := sin (dLat/2) * sin (dLat/2) +
    cos (lat1 * π / 180) * cos (lat2 * π / 180) *
    sin (dLon/2) * sin (dLon/2)
  let c := 2 * atan2 (sqrt a) (sqrt (1 - a))
  R * c

end DynamicRouteCalculationService

/-! ## Theorems

General lemmas about the embedded functions, then one theorem per claim
(with witnesses and counterexamples). -/

theorem round_le_round (x y : ℚ) (h : x ≤ y) : round x ≤ round y := by
  rw [round_eq, round_eq]
  exact Int.floor_le_floor (by linarith)

theorem round_nonneg (x : ℚ) (h : 0 ≤ x) : 0 ≤ round x := by
  have := round_le_round 0 x h
  rwa [round_zero] at this

theorem round_le_eighty (x : ℚ) (h : x ≤ 80) : round x ≤ 80 := by
  have h80 : round (80 : ℚ) = 80 := by
    rw [show (80 : ℚ) = ((80 : ℤ) : ℚ) by norm_num, round_intCast]
  have := round_le_round x 80 h
  rwa [h80] at this

/-- Rounding to one decimal moves a value by at most 1/20. -/
theorem abs_round1_sub (x : ℚ) : |round1 x - x| ≤ 1/20 := by
  have h := abs_sub_round (x * 10)
  rw [abs_sub_comm] at h
  have hx : round1 x - x = ((round (x * 10) : ℚ) - x * 10) / 10 := by
    rw [round1]; ring
  rw [hx, abs_div]
  rw [show |(10 : ℚ)| = 10 by norm_num]
  linarith

theorem round1_nonneg (x : ℚ) (h : 0 ≤ x) : 0 ≤ round1 x := by
  rw [round1]
  have : (0 : ℤ) ≤ round (x * 10) := round_nonneg _ (by linarith)
  positivity

theorem findBestChargingStation_filter (stations : List ChargingStation) (vehicle : EVModel) :
    findBestChargingStation stations vehicle =
      match stations.filter (eligibleStation vehicle) with
      | [] => none
      | first :: rest =>
          some (rest.foldl (fun best current =>
            if scoreChargingStation current > scoreChargingStation best then current else best)
            first) := by
  unfold findBestChargingStation eligibleStation
  rfl

/-- If some eligible station is offered, `findBestChargingStation` selects one. -/
theorem findBestChargingStation_isSome (stations : List ChargingStation) (vehicle : EVModel)
    (h : ∃ s ∈ stations, eligibleStation vehicle s = true) :
    ∃ b, findBestChargingStation stations vehicle = some b := by
  rw [findBestChargingStation_filter]
  obtain ⟨s, hs, he⟩ := h
  cases hfl : stations.filter (eligibleStation vehicle) with
  | nil => exact absurd he ((List.filter_eq_nil_iff.mp hfl) s hs)
  | cons first rest => exact ⟨_, rfl⟩

theorem plannerStep_no_charge (getStations : ℚ → ℚ → List ChargingStation) (vehicle : EVModel)
    (st : PlannerState) (segment : RouteSegment)
    (hck : ¬(st.currentSOC - segment.energyRequired / vehicle.batteryCapacity * 100 < 20)) :
    plannerStep getStations vehicle st segment =
      { stops := st.stops
        currentSOC := st.currentSOC - segment.energyRequired / vehicle.batteryCapacity * 100
        currentLat := segment.endLat
        currentLng := segment.endLng } := by
  simp only [plannerStep, if_neg hck]

theorem plannerStep_no_station (getStations : ℚ → ℚ → List ChargingStation) (vehicle : EVModel)
    (st : PlannerState) (segment : RouteSegment)
    (hck : st.currentSOC - segment.energyRequired / vehicle.batteryCapacity * 100 < 20)
    (hb : findBestChargingStation (getStations st.currentLat st.currentLng) vehicle = none) :
    plannerStep getStations vehicle st segment =
      { stops := st.stops
        currentSOC := st.currentSOC - segment.energyRequired / vehicle.batteryCapacity * 100
        currentLat := segment.endLat
        currentLng := segment.endLng } := by
  simp only [plannerStep, if_pos hck, hb]

theorem plannerStep_charge (getStations : ℚ → ℚ → List ChargingStation) (vehicle : EVModel)
    (st : PlannerState) (segment : RouteSegment) (b : ChargingStation)
    (hck : st.currentSOC - segment.energyRequired / vehicle.batteryCapacity * 100 < 20)
    (hb : findBestChargingStation (getStations st.currentLat st.currentLng) vehicle = some b) :
    plannerStep getStations vehicle st segment =
      { stops := st.stops ++
          [{ station := b
             arrivalSOC := round st.currentSOC
             departureSOC := 80
             chargingTime := round (vehicle.batteryCapacity * (80 - st.currentSOC) / 100
               / min b.maxPower vehicle.maxChargingSpeed * 60)
             energyAdded := round1 (vehicle.batteryCapacity * (80 - st.currentSOC) / 100) }]
        currentSOC := 80 - segment.energyRequired / vehicle.batteryCapacity * 100
        currentLat := segment.endLat
        currentLng := segment.endLng } := by
  simp only [plannerStep, if_pos hck, hb]

/-- Each planner iteration appends at most one stop. -/
theorem plannerStep_stops_length (getStations : ℚ → ℚ → List ChargingStation) (vehicle : EVModel)
    (st : PlannerState) (segment : RouteSegment) :
    ((plannerStep getStations vehicle st segment).stops).length ≤ st.stops.length + 1 := by
  by_cases hck : st.currentSOC - segment.energyRequired / vehicle.batteryCapacity * 100 < 20
  · cases hb : findBestChargingStation (getStations st.currentLat st.currentLng) vehicle with
    | none => rw [plannerStep_no_station getStations vehicle st segment hck hb]; simp
    | some b => rw [plannerStep_charge getStations vehicle st segment b hck hb]; simp
  · rw [plannerStep_no_charge getStations vehicle st segment hck]; simp

theorem foldl_plannerStep_stops_length (getStations : ℚ → ℚ → List ChargingStation)
    (vehicle : EVModel) (segs : List RouteSegment) :
    ∀ st : PlannerState,
      ((segs.foldl (plannerStep getStations vehicle) st).stops).length
        ≤ st.stops.length + segs.length := by
  induction segs with
  | nil => intro st; simp
  | cons seg rest ih =>
      intro st
      rw [List.foldl_cons]
      have h1 := ih (plannerStep getStations vehicle st seg)
      have h2 := plannerStep_stops_length getStations vehicle st seg
      simp only [List.length_cons]
      omega

/-- Claim C10: the planner inserts at most one charging stop per segment, so
the stop list is never longer than the segment list; and through the full
pipeline (which always builds exactly one segment) every plan has at most one
charging stop. -/
theorem claim_C10 :
    (∀ (getStations : ℚ → ℚ → List ChargingStation) (segs : List RouteSegment)
      (vehicle : EVModel) (initialSOC : ℚ),
      (findOptimalChargingStops getStations segs vehicle initialSOC).length ≤ segs.length) ∧
    (∀ (getStations : ℚ → ℚ → List ChargingStation) (elevationResp : Option (List (Option ℚ)))
      (origin destination : RoutePoint) (vehicle : EVModel) (initialSOC : ℚ)
      (weather : WeatherData) (totalDistanceKm : ℚ) (now : ℤ),
      ((calculateOptimalRoute getStations elevationResp origin destination vehicle initialSOC
        weather totalDistanceKm now).chargingStops).length ≤ 1) := by
  constructor
  · intro getStations segs vehicle initialSOC
    cases segs with
    | nil => simp [findOptimalChargingStops]
    | cons s0 rest =>
        have h := foldl_plannerStep_stops_length getStations vehicle (s0 :: rest)
          { stops := [], currentSOC := initialSOC, currentLat := s0.startLat,
            currentLng := s0.startLng }
        simpa [findOptimalChargingStops] using h
  · intro getStations elevationResp origin destination vehicle initialSOC weather totalDistanceKm now
    have h := foldl_plannerStep_stops_length getStations vehicle
      (calculateRouteSegments origin destination vehicle
        (getElevationProfile elevationResp origin destination totalDistanceKm) weather
        totalDistanceKm)
    simp only [calculateOptimalRoute, findOptimalChargingStops, calculateRouteSegments] at h ⊢
    simpa using h _

/-- Claim C2: when the buffer check fires but no compatible available station
is found, the iteration inserts no stop and still subtracts the segment's SOC
need (no error is raised: the planner is a total function); concretely, with
an empty directory a plan's SOC trajectory goes negative while its stop list
stays empty. -/
theorem claim_C2 :
    (∀ (getStations : ℚ → ℚ → List ChargingStation) (vehicle : EVModel)
      (st : PlannerState) (segment : RouteSegment),
      st.currentSOC - segment.energyRequired / vehicle.batteryCapacity * 100 < 20 →
      findBestChargingStation (getStations st.currentLat st.currentLng) vehicle = none →
      plannerStep getStations vehicle st segment =
        { stops := st.stops
          currentSOC := st.currentSOC - segment.energyRequired / vehicle.batteryCapacity * 100
          currentLat := segment.endLat
          currentLng := segment.endLng }) ∧
    findOptimalChargingStops gsEmpty [seg50] vA 30 = [] ∧
    plannerTrajectory gsEmpty vA
      { stops := [], currentSOC := 30, currentLat := 0, currentLng := 0 } [seg50] = [-20] ∧
    (-20 : ℚ) < 0 := by
  refine ⟨?_, ?_, ?_, by norm_num⟩
  · intro getStations vehicle st segment hck hb
    exact plannerStep_no_station getStations vehicle st segment hck hb
  · with_unfolding_all decide
  · with_unfolding_all decide

theorem claim_C2_witness :
    plannerStep gsEmpty vA { stops := [], currentSOC := 30, currentLat := 0, currentLng := 0 }
        seg50 =
      { stops := []
        currentSOC := 30 - seg50.energyRequired / vA.batteryCapacity * 100
        currentLat := seg50.endLat
        currentLng := seg50.endLng } :=
  claim_C2.1 gsEmpty vA { stops := [], currentSOC := 30, currentLat := 0, currentLng := 0 }
    seg50 (by with_unfolding_all decide) (by with_unfolding_all decide)

/-- Claim C6: an inserted stop charges to the fixed target 80, with
`energyToAdd = batteryCapacity * (80 - currentSOC) / 100`, charging power
`min(station.maxPower, vehicle.maxChargingSpeed)` and
`chargingTime = energyToAdd / chargingPower * 60` minutes, the recorded
`energyAdded` within 1/20 kWh and the recorded `chargingTime` within 1/2
minute of the exact values. -/
theorem claim_C6 (getStations : ℚ → ℚ → List ChargingStation) (vehicle : EVModel)
    (st : PlannerState) (segment : RouteSegment) (b : ChargingStation)
    (hck : st.currentSOC - segment.energyRequired / vehicle.batteryCapacity * 100 < 20)
    (hb : findBestChargingStation (getStations st.currentLat st.currentLng) vehicle = some b)
    (_hpow : 0 < min b.maxPower vehicle.maxChargingSpeed) :
    (plannerStep getStations vehicle st segment).stops = st.stops ++
      [{ station := b
         arrivalSOC := round st.currentSOC
         departureSOC := 80
         chargingTime := round (vehicle.batteryCapacity * (80 - st.currentSOC) / 100
           / min b.maxPower vehicle.maxChargingSpeed * 60)
         energyAdded := round1 (vehicle.batteryCapacity * (80 - st.currentSOC) / 100) }] ∧
    |round1 (vehicle.batteryCapacity * (80 - st.currentSOC) / 100)
        - vehicle.batteryCapacity * (80 - st.currentSOC) / 100| ≤ 1/20 ∧
    |(round (vehicle.batteryCapacity * (80 - st.currentSOC) / 100
          / min b.maxPower vehicle.maxChargingSpeed * 60) : ℚ)
        - vehicle.batteryCapacity * (80 - st.currentSOC) / 100
          / min b.maxPower vehicle.maxChargingSpeed * 60| ≤ 1/2 := by
  refine ⟨?_, abs_round1_sub _, ?_⟩
  · rw [plannerStep_charge getStations vehicle st segment b hck hb]
  · rw [abs_sub_comm]
    exact abs_sub_round _

theorem claim_C6_witness :
    (plannerStep gsA vA { stops := [], currentSOC := 10, currentLat := 0, currentLng := 0 }
        seg30).stops = [] ++
      [{ station := stationA
         arrivalSOC := round (10 : ℚ)
         departureSOC := 80
         chargingTime := round (vA.batteryCapacity * (80 - (10:ℚ)) / 100
           / min stationA.maxPower vA.maxChargingSpeed * 60)
         energyAdded := round1 (vA.batteryCapacity * (80 - (10:ℚ)) / 100) }] ∧
    |round1 (vA.batteryCapacity * (80 - (10:ℚ)) / 100)
        - vA.batteryCapacity * (80 - (10:ℚ)) / 100| ≤ 1/20 ∧
    |(round (vA.batteryCapacity * (80 - (10:ℚ)) / 100
          / min stationA.maxPower vA.maxChargingSpeed * 60) : ℚ)
        - vA.batteryCapacity * (80 - (10:ℚ)) / 100
          / min stationA.maxPower vA.maxChargingSpeed * 60| ≤ 1/2 :=
  claim_C6 gsA vA { stops := [], currentSOC := 10, currentLat := 0, currentLng := 0 } seg30
    stationA (by with_unfolding_all decide) (by with_unfolding_all decide)
    (by with_unfolding_all decide)

/-- Claim C5 (amended): an inserted stop satisfies the §3 bounds
(`arrivalSOC` in [0,100], `departureSOC = 80` ≥ `arrivalSOC`,
`chargingTime ≥ 0`, `energyAdded ≥ 0`) provided the SOC on arrival lies in
[0, 80] and battery capacity and the selected charging power are nonnegative;
without that proviso the bounds fail (see the counterexample). -/
theorem claim_C5 (getStations : ℚ → ℚ → List ChargingStation) (vehicle : EVModel)
    (st : PlannerState) (segment : RouteSegment) (b : ChargingStation)
    (hck : st.currentSOC - segment.energyRequired / vehicle.batteryCapacity * 100 < 20)
    (hb : findBestChargingStation (getStations st.currentLat st.currentLng) vehicle = some b)
    (hcap : 0 ≤ vehicle.batteryCapacity)
    (hsoc0 : 0 ≤ st.currentSOC) (hsoc80 : st.currentSOC ≤ 80)
    (hpow : 0 < min b.maxPower vehicle.maxChargingSpeed) :
    (plannerStep getStations vehicle st segment).stops = st.stops ++
      [{ station := b
         arrivalSOC := round st.currentSOC
         departureSOC := 80
         chargingTime := round (vehicle.batteryCapacity * (80 - st.currentSOC) / 100
           / min b.maxPower vehicle.maxChargingSpeed * 60)
         energyAdded := round1 (vehicle.batteryCapacity * (80 - st.currentSOC) / 100) }] ∧
    0 ≤ round st.currentSOC ∧
    round st.currentSOC ≤ 100 ∧
    ((round st.currentSOC : ℚ) ≤ 80) ∧
    0 ≤ round (vehicle.batteryCapacity * (80 - st.currentSOC) / 100
      / min b.maxPower vehicle.maxChargingSpeed * 60) ∧
    0 ≤ round1 (vehicle.batteryCapacity * (80 - st.currentSOC) / 100) := by
  have henergy : 0 ≤ vehicle.batteryCapacity * (80 - st.currentSOC) / 100 := by
    have : 0 ≤ 80 - st.currentSOC := by linarith
    positivity
  have harr80 : round st.currentSOC ≤ 80 := round_le_eighty _ hsoc80
  refine ⟨?_, round_nonneg _ hsoc0, by omega, ?_, ?_, round1_nonneg _ henergy⟩
  · rw [plannerStep_charge getStations vehicle st segment b hck hb]
  · exact_mod_cast harr80
  · apply round_nonneg
    have h1 : 0 ≤ vehicle.batteryCapacity * (80 - st.currentSOC) / 100
        / min b.maxPower vehicle.maxChargingSpeed := div_nonneg henergy hpow.le
    linarith

theorem claim_C5_witness :
    (plannerStep gsA vA { stops := [], currentSOC := 10, currentLat := 0, currentLng := 0 }
        seg50).stops = [] ++
      [{ station := stationA
         arrivalSOC := round (10 : ℚ)
         departureSOC := 80
         chargingTime := round (vA.batteryCapacity * (80 - (10:ℚ)) / 100
           / min stationA.maxPower vA.maxChargingSpeed * 60)
         energyAdded := round1 (vA.batteryCapacity * (80 - (10:ℚ)) / 100) }] ∧
    0 ≤ round (10 : ℚ) ∧
    round (10 : ℚ) ≤ 100 ∧
    ((round (10 : ℚ) : ℚ) ≤ 80) ∧
    0 ≤ round (vA.batteryCapacity * (80 - (10:ℚ)) / 100
      / min stationA.maxPower vA.maxChargingSpeed * 60) ∧
    0 ≤ round1 (vA.batteryCapacity * (80 - (10:ℚ)) / 100) :=
  claim_C5 gsA vA { stops := [], currentSOC := 10, currentLat := 0, currentLng := 0 } seg50
    stationA (by with_unfolding_all decide) (by with_unfolding_all decide)
    (by with_unfolding_all decide) (by with_unfolding_all decide)
    (by with_unfolding_all decide) (by with_unfolding_all decide)

/-- Claim C5 counterexample: at initial SOC 100 (within [0,100]) and one
whole-battery segment, the produced stop has `energyAdded = -15 < 0`,
`chargingTime = -6 < 0`, and `departureSOC = 80 <` `arrivalSOC = 100`. -/
theorem claim_C5_cex :
    (findOptimalChargingStops gsA [segFull] vA 100).map
        (fun s => (s.arrivalSOC, s.departureSOC, s.chargingTime, s.energyAdded))
      = [(100, 80, -6, -15)] ∧
    (-15 : ℚ) < 0 ∧ (-6 : ℤ) < 0 ∧ (80 : ℚ) < 100 := by
  refine ⟨by with_unfolding_all decide, by norm_num, by norm_num, by norm_num⟩

/-- Claim C1 (amended): if the directory always offers an eligible station,
and every segment's SOC need is at most 80 percentage points (the most a
charge-to-80% stop can cover), the running `currentSOC` at every segment
boundary is nonnegative — from any starting state. -/
theorem claim_C1 (getStations : ℚ → ℚ → List ChargingStation) (vehicle : EVModel)
    (hstation : ∀ lat lng, ∃ s ∈ getStations lat lng, eligibleStation vehicle s = true)
    (segs : List RouteSegment)
    (hseg : ∀ seg ∈ segs, seg.energyRequired / vehicle.batteryCapacity * 100 ≤ 80)
    (st : PlannerState) :
    ∀ x ∈ plannerTrajectory getStations vehicle st segs, 0 ≤ x := by
  revert hseg st
  induction segs with
  | nil =>
      intro hseg st x hx
      simp [plannerTrajectory] at hx
  | cons seg rest ih =>
      intro hseg st x hx
      have hsoc : 0 ≤ (plannerStep getStations vehicle st seg).currentSOC := by
        by_cases hck : st.currentSOC - seg.energyRequired / vehicle.batteryCapacity * 100 < 20
        · obtain ⟨b, hb⟩ := findBestChargingStation_isSome _ _
            (hstation st.currentLat st.currentLng)
          rw [plannerStep_charge getStations vehicle st seg b hck hb]
          have h80 := hseg seg (List.mem_cons_self seg rest)
          dsimp only
          linarith
        · rw [plannerStep_no_charge getStations vehicle st seg hck]
          dsimp only
          linarith [not_lt.mp hck]
      simp only [plannerTrajectory] at hx
      rw [List.mem_cons] at hx
      rcases hx with h | h
      · exact h ▸ hsoc
      · exact ih (fun s hs => hseg s (List.mem_cons_of_mem seg hs)) _ x h

theorem claim_C1_witness :
    (0 : ℚ) ≤
      (plannerTrajectory gsA vA
        { stops := [], currentSOC := 30, currentLat := 0, currentLng := 0 } [seg30]).headI := by
  have h := claim_C1 gsA vA
    (fun lat lng => ⟨stationA, by simp [gsA], by with_unfolding_all decide⟩)
    [seg30] (by with_unfolding_all decide)
    { stops := [], currentSOC := 30, currentLat := 0, currentLng := 0 }
  have heq : plannerTrajectory gsA vA
      { stops := [], currentSOC := 30, currentLat := 0, currentLng := 0 } [seg30] = [40] := by
    with_unfolding_all decide
  rw [heq] at h ⊢
  exact h 40 (by simp)

/-- Claim C1 counterexample: a directory that always offers an eligible
station, nonnegative segment energies and an initial SOC of 50 (in [0,100]),
yet the SOC at the first segment boundary is -10 < 0: a single segment
needing 90 SOC points exceeds what a charge to 80% can cover. -/
theorem claim_C1_cex :
    (∀ lat lng, ∃ s ∈ gsA lat lng, eligibleStation vA s = true) ∧
    (∀ seg ∈ [seg90], 0 ≤ seg.energyRequired) ∧
    ((0 : ℚ) ≤ 50 ∧ (50 : ℚ) ≤ 100) ∧
    plannerTrajectory gsA vA
      { stops := [], currentSOC := 50, currentLat := 0, currentLng := 0 } [seg90] = [-10] ∧
    (-10 : ℚ) < 0 := by
  refine ⟨fun lat lng => ⟨stationA, by simp [gsA], by with_unfolding_all decide⟩,
    by with_unfolding_all decide, by norm_num, by with_unfolding_all decide, by norm_num⟩

/-- Claim C9 (amended): for fixed weather with nonnegative wind speed and a
vehicle with nonnegative efficiency, mass, drag coefficient and frontal area
(the spec's caller contract), `calculateEnergyConsumption` is jointly
non-decreasing in distance and elevation gain over nonnegative inputs. -/
theorem claim_C9 (vehicle : EVModel) (weather : WeatherData)
    (heff : 0 ≤ vehicle.efficiency) (hmass : 0 ≤ vehicle.mass)
    (hdrag : 0 ≤ vehicle.dragCoefficient) (harea : 0 ≤ vehicle.frontalArea)
    (hwind : 0 ≤ weather.windSpeed)
    (d1 d2 g1 g2 : ℚ) (_hd0 : 0 ≤ d1) (hd : d1 ≤ d2) (_hg0 : 0 ≤ g1) (hg : g1 ≤ g2) :
    calculateEnergyConsumption d1 g1 vehicle weather
      ≤ calculateEnergyConsumption d2 g2 vehicle weather := by
  unfold calculateEnergyConsumption calculateAirResistanceImpact
  dsimp only
  set wm := getWeatherMultiplier weather vehicle with hwm
  have hwm0 : 0 ≤ wm := by
    rw [hwm]; unfold getWeatherMultiplier; dsimp only
    have hmin : 0 ≤ min (2/10 : ℚ) (weather.windSpeed / 100) :=
      le_min (by norm_num) (by positivity)
    split_ifs <;> linarith
  apply max_le_max le_rfl
  apply mul_le_mul_of_nonneg_right _ hwm0
  have hD : 0 ≤ d2 - d1 := by linarith
  have hG : 0 ≤ g2 - g1 := by linarith
  have hC : 0 ≤ vehicle.dragCoefficient * vehicle.frontalArea :=
    mul_nonneg hdrag harea
  nlinarith [mul_nonneg hD heff, mul_nonneg hG hmass, mul_nonneg (mul_nonneg hC hD) hD,
    mul_nonneg hC hD]

theorem claim_C9_witness :
    calculateEnergyConsumption 0 0 vA wA ≤ calculateEnergyConsumption 1 1 vA wA :=
  claim_C9 vA wA (by with_unfolding_all decide) (by with_unfolding_all decide)
    (by with_unfolding_all decide) (by with_unfolding_all decide)
    (by with_unfolding_all decide) 0 1 0 1 (by norm_num) (by norm_num) (by norm_num)
    (by norm_num)

/-- Claim C9 counterexample: with a (contract-violating) negative-efficiency
vehicle, energy strictly decreases as distance grows from 0 to 1 at fixed
elevation gain 1000, so the claim's unrestricted vehicle quantifier fails. -/
theorem claim_C9_cex :
    calculateEnergyConsumption 1 1000 vNeg wCalm
      < calculateEnergyConsumption 0 1000 vNeg wCalm ∧
    (0 : ℚ) ≤ 0 ∧ ((0 : ℚ) ≤ 1 ∧ (0 : ℚ) ≤ 1000) := by
  exact ⟨by with_unfolding_all decide, by norm_num, by norm_num, by norm_num⟩

/-- Claim C3 (amended): the plan's `finalSOC` is the display rounding of
`max 0 (initialSOC - Σ segment energy + Σ stop energyAdded, as % of
capacity)` — the code clamps below at 0 but not above at 100 — and is
therefore always nonnegative (but can exceed 100, see the counterexample). -/
theorem claim_C3 (getStations : ℚ → ℚ → List ChargingStation)
    (elevationResp : Option (List (Option ℚ))) (origin destination : RoutePoint)
    (vehicle : EVModel) (initialSOC : ℚ) (weather : WeatherData)
    (totalDistanceKm : ℚ) (now : ℤ) :
    (calculateOptimalRoute getStations elevationResp origin destination vehicle initialSOC
        weather totalDistanceKm now).finalSOC =
      round (max 0 (initialSOC
        - ((calculateOptimalRoute getStations elevationResp origin destination vehicle
            initialSOC weather totalDistanceKm now).segments.foldl
            (fun sum seg => sum + seg.energyRequired) 0) / vehicle.batteryCapacity * 100
        + ((calculateOptimalRoute getStations elevationResp origin destination vehicle
            initialSOC weather totalDistanceKm now).chargingStops.foldl
            (fun sum stop => sum + stop.energyAdded) 0) / vehicle.batteryCapacity * 100)) ∧
    0 ≤ (calculateOptimalRoute getStations elevationResp origin destination vehicle initialSOC
        weather totalDistanceKm now).finalSOC := by
  constructor
  · rfl
  · exact round_nonneg _ (le_max_left _ _)

/-- Claim C3 counterexample: a valid input (initial SOC 19 in [0,100],
positive capacity 41/500, nonnegative segment energies, distance 0 — the
exact haversine value for origin = destination) whose plan reports
`finalSOC = 141 > 100`: the one-decimal rounding of `energyAdded` is worth
more than 20 SOC points at this capacity and the code never clamps at 100. -/
theorem claim_C3_cex :
    (calculateOptimalRoute gsA none ⟨0, 0⟩ ⟨0, 0⟩ vTiny 19 wA 0 0).finalSOC = 141 ∧
    ¬((calculateOptimalRoute gsA none ⟨0, 0⟩ ⟨0, 0⟩ vTiny 19 wA 0 0).finalSOC ≤ 100) ∧
    0 < vTiny.batteryCapacity ∧ ((0 : ℚ) ≤ 19 ∧ (19 : ℚ) ≤ 100) ∧
    RealChargingStationService.calculateDistance 0 0 0 0 = 0 := by
  refine ⟨by with_unfolding_all decide, by with_unfolding_all decide,
    by with_unfolding_all decide, by norm_num, ?_⟩
  unfold RealChargingStationService.calculateDistance atan2
  norm_num [Real.arctan_zero]

/-- Claim C4 (amended): two runs on identical inputs (directory, elevation
and weather responses included) agree on every `RoutePlan` field except `id`,
which embeds the call-time clock (`Date.now()`). -/
theorem claim_C4 (getStations : ℚ → ℚ → List ChargingStation)
    (elevationResp : Option (List (Option ℚ))) (origin destination : RoutePoint)
    (vehicle : EVModel) (initialSOC : ℚ) (weather : WeatherData)
    (totalDistanceKm : ℚ) (t1 t2 : ℤ) :
    calculateOptimalRoute getStations elevationResp origin destination vehicle initialSOC
        weather totalDistanceKm t1 =
      { calculateOptimalRoute getStations elevationResp origin destination vehicle initialSOC
          weather totalDistanceKm t2 with id := "route-" ++ toString t1 } := rfl

/-- Claim C4 counterexample: the same inputs at clock times 0 and 1 give
unequal `RoutePlan`s (their `id` fields differ), so the plans are not
identical in all fields. -/
theorem claim_C4_cex :
    calculateOptimalRoute gsA none ⟨0, 0⟩ ⟨0, 0⟩ vA 50 wA 0 0
      ≠ calculateOptimalRoute gsA none ⟨0, 0⟩ ⟨0, 0⟩ vA 50 wA 0 1 := by
  with_unfolding_all decide

/-- Claim C8 (amended): the elevation profile is sampled at the 11 points
`i/10` (i = 0..10, `numPoints = 10` plus the endpoint fence-post) evenly
interpolated between origin and destination; the profile reduces to the
rounded sum of positive consecutive deltas (descents ignored); and on
provider failure it degrades to a flat two-point profile with equal
elevations and gain 0. -/
theorem claim_C8 :
    (∀ origin destination : RoutePoint,
      (interpolateRoutePoints origin destination 10).length = 11) ∧
    (∀ (origin destination : RoutePoint) (i : ℕ)
      (h : i < (interpolateRoutePoints origin destination 10).length),
      (interpolateRoutePoints origin destination 10)[i] =
        { lat := origin.lat + (destination.lat - origin.lat) * ((i : ℚ) / 10)
          lng := origin.lng + (destination.lng - origin.lng) * ((i : ℚ) / 10) }) ∧
    (∀ l : List ℚ,
      elevationGainSum l = ((l.zip l.tail).map (fun p => max 0 (p.2 - p.1))).sum) ∧
    (∀ (origin destination : RoutePoint) (totalDistanceKm : ℚ),
      getElevationProfile none origin destination totalDistanceKm =
        [{ elevation := 50, distance := 0 }, { elevation := 50, distance := totalDistanceKm }] ∧
      calculateElevationGain
        (getElevationProfile none origin destination totalDistanceKm) = 0) := by
  refine ⟨?_, ?_, ?_, ?_⟩
  · intro origin destination
    rw [interpolateRoutePoints, List.length_map, List.length_range]
  · intro origin destination i h
    simp only [interpolateRoutePoints, List.getElem_map, List.getElem_range]
    simp only [RoutePoint.mk.injEq]
    norm_num
  · intro l
    induction l with
    | nil => simp [elevationGainSum]
    | cons a tail ih =>
        cases tail with
        | nil => simp [elevationGainSum]
        | cons b rest =>
            rw [elevationGainSum]
            simp only [List.tail_cons] at ih ⊢
            rw [List.zip_cons_cons, List.map_cons, List.sum_cons, ih]
            congr 1
            rcases lt_or_ge 0 (b - a) with hlt | hle
            · rw [if_pos hlt, max_eq_right hlt.le]
            · rw [if_neg (not_lt.mpr hle), max_eq_left hle]
  · intro origin destination totalDistanceKm
    refine ⟨rfl, ?_⟩
    simp [calculateElevationGain, getElevationProfile, elevationGainSum]

theorem claim_C8_witness :
    (interpolateRoutePoints ⟨0, 0⟩ ⟨10, 10⟩ 10).get
        ⟨3, by with_unfolding_all decide⟩ =
      { lat := 0 + ((10 : ℚ) - 0) * ((3 : ℚ) / 10), lng := 0 + ((10 : ℚ) - 0) * ((3 : ℚ) / 10) } := by
  have h := claim_C8.2.1 ⟨0, 0⟩ ⟨10, 10⟩ 3 (by with_unfolding_all decide)
  simpa [List.get_eq_getElem] using h

/-- Claim C8 counterexample: the interpolation for `numPoints = 10` yields 11
profile points (i runs from 0 to 10 inclusive), not 10. -/
theorem claim_C8_cex :
    (interpolateRoutePoints ⟨0, 0⟩ ⟨10, 10⟩ 10).length = 11 ∧
    (interpolateRoutePoints ⟨0, 0⟩ ⟨10, 10⟩ 10).length ≠ 10 := by
  exact ⟨by with_unfolding_all decide, by with_unfolding_all decide⟩

/-! ### Facts about the haversine distance (for claim C7) -/

theorem self_le_arcsin (x : ℝ) (h0 : 0 ≤ x) (h1 : x ≤ 1) : x ≤ Real.arcsin x := by
  have hs : Real.sin (Real.arcsin x) = x := Real.sin_arcsin (by linarith) h1
  have hnn : 0 ≤ Real.arcsin x := Real.arcsin_nonneg.mpr h0
  rcases eq_or_lt_of_le hnn with heq | hlt
  · have hx0 : 0 = x := by rw [← hs, ← heq, Real.sin_zero]
    rw [← hx0, Real.arcsin_zero]
  · have := Real.sin_lt hlt
    linarith [hs ▸ this]

/-- On arguments of the form `(√a, √(1-a))` with `a ∈ [0,1]` — the shape the
haversine formula produces — `atan2` is `arcsin √a`. -/
theorem atan2_sqrt (a : ℝ) (h0 : 0 ≤ a) (h1 : a ≤ 1) :
    atan2 (Real.sqrt a) (Real.sqrt (1 - a)) = Real.arcsin (Real.sqrt a) := by
  rcases eq_or_lt_of_le h1 with heq | hlt
  · rw [heq]
    norm_num [atan2, Real.sqrt_one, Real.arcsin_one]
  · have hx : 0 < Real.sqrt (1 - a) := Real.sqrt_pos.mpr (by linarith)
    rw [atan2, if_pos hx, Real.arctan_eq_arcsin]
    congr 1
    have ha' : Real.sqrt a ^ 2 = a := Real.sq_sqrt h0
    have hb' : Real.sqrt (1 - a) ^ 2 = 1 - a := Real.sq_sqrt (by linarith)
    have h1a : (0 : ℝ) < 1 - a := by linarith
    have hsum : 1 + (Real.sqrt a / Real.sqrt (1 - a)) ^ 2 = (1 - a)⁻¹ := by
      rw [div_pow, ha', hb']
      field_simp
    rw [hsum, Real.sqrt_inv]
    field_simp

set_option maxHeartbeats 1000000 in
open Real in
/-- For a query at the equator-meridian origin (0,0), every station at
latitude between 23 and 27 degrees is more than 1 km away by the haversine
formula. -/
theorem fallback_far (la lo : ℝ) (h1 : 23 ≤ la) (h2 : la ≤ 27) :
    1 < RealChargingStationService.calculateDistance 0 0 la lo := by
  have hpi3 : (3 : ℝ) < π := Real.pi_gt_three
  have hpi4 : π < 3.15 := Real.pi_lt_d2
  unfold RealChargingStationService.calculateDistance
  dsimp only
  rw [show (0 : ℝ) * π / 180 = 0 by ring, Real.cos_zero, one_mul,
    show la * π / 180 = 2 * ((la - 0) * π / 180 / 2) by ring]
  set x := (la - 0) * π / 180 / 2 with hxdef
  set m := (lo - 0) * π / 180 / 2 with hmdef
  have hlapi : 69 < la * π := by nlinarith
  have hlapi' : la * π < 85.05 := by nlinarith
  have hx1 : 0.19 < x := by rw [hxdef]; nlinarith
  have hx2 : x < 0.24 := by rw [hxdef]; nlinarith
  have hxpi : x ≤ π / 2 := by linarith
  have hsin_ub := Real.sin_lt (show (0:ℝ) < x by linarith)
  have hmul := Real.mul_le_sin (show (0:ℝ) ≤ x by linarith) hxpi
  have hsinx : 0.12 < Real.sin x := by
    have hkey : (0.12 : ℝ) * π < 2 * x := by nlinarith
    have h2x : (0.12 : ℝ) < 2 / π * x := by
      rw [div_mul_eq_mul_div, lt_div_iff₀ (by linarith : (0:ℝ) < π)]
      linarith
    linarith
  have hcos_pos : 0 < Real.cos (2 * x) := by
    apply Real.cos_pos_of_mem_Ioo
    constructor
    · linarith
    · linarith
  have hcos_eq : Real.cos (2 * x) = 1 - 2 * Real.sin x ^ 2 := by
    rw [Real.cos_two_mul]
    nlinarith [Real.sin_sq_add_cos_sq x]
  set A := Real.sin x * Real.sin x + Real.cos (2 * x) * Real.sin m * Real.sin m with hAdef
  have hA0 : 0 ≤ A := by
    rw [hAdef]
    have := mul_self_nonneg (Real.sin m)
    nlinarith [mul_self_nonneg (Real.sin x)]
  have hA1 : A ≤ 1 := by
    rw [hAdef]
    nlinarith [Real.sin_sq_le_one m, mul_self_nonneg (Real.sin m), hcos_eq, hcos_pos,
      sq_nonneg (Real.sin x), sq_nonneg (Real.sin m)]
  have hAlb : (0.12 : ℝ) ^ 2 < A := by
    rw [hAdef]
    nlinarith [mul_self_nonneg (Real.sin m), hsinx, sq_nonneg (Real.sin x - 0.12),
      mul_nonneg hcos_pos.le (mul_self_nonneg (Real.sin m))]
  have hsqrtA : (0.12 : ℝ) < Real.sqrt A := (Real.lt_sqrt (by norm_num)).mpr hAlb
  have hsq1 : Real.sqrt A ≤ 1 := by
    rw [show (1:ℝ) = Real.sqrt 1 by rw [Real.sqrt_one]]
    exact Real.sqrt_le_sqrt hA1
  rw [atan2_sqrt A hA0 hA1]
  have harc := self_le_arcsin (Real.sqrt A) (Real.sqrt_nonneg A) hsq1
  nlinarith [harc, hsqrtA]

/-- Claim C7 (amended): when the live source is unreachable the directory
returns the fixed curated fallback dataset filtered to the requested radius —
a station is returned exactly when it belongs to the curated list and its
haversine distance to the query point is within the radius — and the distance
formula is the very same one `dynamicRouteCalculationService` uses.  (The
filtered list is deterministic but can be empty for remote query points:
see the counterexample.) -/
theorem claim_C7 :
    (∀ (s : ChargingStation) (lat lng radiusKm : ℝ),
      s ∈ RealChargingStationService.getFallbackStations lat lng radiusKm ↔
        s ∈ RealChargingStationService.fallbackStations ∧
          RealChargingStationService.calculateDistance lat lng (s.lat : ℝ) (s.lng : ℝ)
            ≤ radiusKm) ∧
    (∀ lat1 lon1 lat2 lon2 : ℝ,
      DynamicRouteCalculationService.calculateDistance lat1 lon1 lat2 lon2 =
        RealChargingStationService.calculateDistance lat1 lon1 lat2 lon2) := by
  constructor
  · intro s lat lng radiusKm
    unfold RealChargingStationService.getFallbackStations
    rw [List.mem_filter, decide_eq_true_eq]
  · intro lat1 lon1 lat2 lon2
    rfl

/-- Claim C7 counterexample: for the query point (0,0) with the positive
radius 1 km, the fallback list is empty — every curated station lies at
latitude 23-27 degrees, more than 1 km away — so the fallback result is not
always non-empty. -/
theorem claim_C7_cex :
    RealChargingStationService.getFallbackStations 0 0 1 = [] ∧ (0 : ℝ) < 1 := by
  refine ⟨?_, by norm_num⟩
  unfold RealChargingStationService.getFallbackStations
  rw [List.filter_eq_nil_iff]
  intro s hs
  simp only [decide_eq_true_eq]
  fin_cases hs <;>
    exact not_le.mpr (fallback_far _ _ (by push_cast; norm_num) (by push_cast; norm_num))
